import Mathlib

/-
Verification of the py4vasp lazy, versioned data-access layer.

The definitions below are a shallow embedding of the source files
`src/py4vasp/raw/file.py`, `src/py4vasp/data/magnetism.py` and
`src/py4vasp/calculation/_exciton.py`.  Parts of the repository that are
referenced but not contained in the sources (the exception classes, the
`DataDict` class from `rawdata`, the `_util.version.require` decorator,
the `_util.Reader` base class, and the selection machinery in
`_util.select` / `_util.index`) are modelled from the specification; the
corresponding definitions carry a doc comment starting with
"Modelled from the spec:".
-/

set_option maxHeartbeats 1000000

namespace PV

/-- Error kinds of the data-access layer, mirroring the exception classes of
`py4vasp.exceptions` and the error classification of the specification
(AccessError, CapabilityError, SelectionError, ReadError, plus the key error
of the keyed result container and the no-data error of the exciton class). -/
inductive Err where
  | fileAccessError (msg : String)
  | keyError (key : String)
  | capabilityError (msg : String)
  | readError (msg : String)
  | noData (msg : String)
  | selectionError (msg : String)
  deriving DecidableEq, Repr

/-- On-disk content of one hierarchical container: which slash-separated paths
exist, and the integer scalars, string scalars, and bulk arrays stored at
them.  This models the opened `h5py.File` object. -/
structure H5Store where
  keys : List String
  ints : List (String × Int)
  strs : List (String × String)
  arrs : List (String × List Int)
  deriving DecidableEq, Repr

/-- Modelled from the spec: a lazy array handle is a (container, path) pair;
the container back-reference is passed explicitly at dereference time.  The
h5py dataset objects and `py4vasp.raw.rawdata` are not part of the sources;
the spec (sections 3 and 9) prescribes this ownership-by-container model. -/
structure Handle where
  path : String
  deriving DecidableEq, Repr

/-- State of one `File` object: the opened store plus the `closed` flag set
in `File.__init__` and `File.close`. -/
structure FileState where
  store : H5Store
  closed : Bool
  deriving DecidableEq, Repr

def hasKey (f : FileState) (p : String) : Bool :=
  f.store.keys.contains p

/-- Indexing the container with a path (`self._h5f[path]`): a handle if the
path exists, a key error otherwise. -/
def h5get (f : FileState) (p : String) : Except Err Handle :=
  if hasKey f p then .ok ⟨p⟩ else .error (.keyError p)

/-- Eager scalar read `self._h5f[path][()]` for an integer leaf. -/
def h5getScalarInt (f : FileState) (p : String) : Except Err Int :=
  if hasKey f p then .ok ((f.store.ints.lookup p).getD 0) else .error (.keyError p)

/-- Eager scalar read `self._h5f[path][()]` for a string leaf. -/
def h5getScalarStr (f : FileState) (p : String) : Except Err String :=
  if hasKey f p then .ok ((f.store.strs.lookup p).getD "") else .error (.keyError p)

/-- Length of a dataset, `len(self._h5f[path])`. -/
def h5len (f : FileState) (p : String) : Except Err Nat :=
  if hasKey f p then .ok ((f.store.arrs.lookup p).getD []).length else .error (.keyError p)

/-- `File._safe_get_key`: the handle when the key exists, else `None`. -/
def File._safe_get_key (f : FileState) (p : String) : Option Handle :=
  if hasKey f p then some ⟨p⟩ else none

/-- Modelled from the spec: dereferencing an array handle (materializing the
bulk data of an h5py dataset) reads through its owning container and first
checks the closed flag, raising the access error used by
`File._raise_error_if_closed` when the container is closed. -/
def derefHandle (f : FileState) (h : Handle) : Except Err (List Int) :=
  if f.closed then .error (.fileAccessError "I/O operation on closed file.")
  else if hasKey f h.path then .ok ((f.store.arrs.lookup h.path).getD [])
  else .error (.keyError h.path)

/-- `File._raise_error_if_closed`. -/
def File._raise_error_if_closed (f : FileState) : Except Err Unit :=
  if f.closed then .error (.fileAccessError "I/O operation on closed file.") else .ok ()

/-- `File.close`: closes the underlying store and sets the closed flag. -/
def File.close (f : FileState) : FileState :=
  { f with closed := true }

/-- `RawVersion`: major, minor and patch number of Vasp. -/
structure RawVersion where
  major : Int
  minor : Int
  patch : Int
  deriving DecidableEq, Repr

/-- Lexicographic comparison of version records, as used by the version
gate (`RawVersion(6, 3)` means minimum `(6, 3, 0)`). -/
def versionLt (a b : RawVersion) : Prop :=
  a.major < b.major ∨
    (a.major = b.major ∧ (a.minor < b.minor ∨ (a.minor = b.minor ∧ a.patch < b.patch)))

instance (a b : RawVersion) : Decidable (versionLt a b) := by
  unfold versionLt; infer_instance

structure RawSystem where
  system : String
  deriving DecidableEq, Repr

structure RawTopology where
  ion_types : Handle
  number_ion_types : Handle
  deriving DecidableEq, Repr

structure RawCell where
  scale : Int
  lattice_vectors : Handle
  deriving DecidableEq, Repr

structure RawKpoint where
  mode : String
  number : Int
  coordinates : Handle
  weights : Handle
  labels : Option Handle
  label_indices : Option Handle
  cell : RawCell
  deriving DecidableEq, Repr

structure RawProjector where
  topology : RawTopology
  orbital_types : Handle
  number_spins : Nat
  deriving DecidableEq, Repr

structure RawDos where
  fermi_energy : Int
  energies : Handle
  dos : Handle
  projectors : Option RawProjector
  projections : Option Handle
  deriving DecidableEq, Repr

structure RawBand where
  fermi_energy : Int
  kpoints : Option RawKpoint
  eigenvalues : Handle
  occupations : Handle
  projectors : Option RawProjector
  projections : Option Handle
  deriving DecidableEq, Repr

structure RawStructure where
  topology : RawTopology
  cell : RawCell
  positions : Handle
  deriving DecidableEq, Repr

structure RawMagnetism where
  structure_ : RawStructure
  moments : Handle
  deriving DecidableEq, Repr

structure RawEnergy where
  labels : Handle
  values : Handle
  deriving DecidableEq, Repr

structure RawDensity where
  structure_ : RawStructure
  charge : Handle
  deriving DecidableEq, Repr

structure RawDielectricFunction where
  energies : Handle
  density_density : Option Handle
  current_current : Option Handle
  ion : Option Handle
  deriving DecidableEq, Repr

structure RawForce where
  structure_ : RawStructure
  forces : Handle
  deriving DecidableEq, Repr

structure RawStress where
  structure_ : RawStructure
  stress : Handle
  deriving DecidableEq, Repr

structure RawForceConstant where
  structure_ : RawStructure
  force_constants : Handle
  deriving DecidableEq, Repr

structure RawDielectricTensor where
  electron : Handle
  ion : Handle
  independent_particle : Option Handle
  method : String
  deriving DecidableEq, Repr

structure RawBornEffectiveCharge where
  structure_ : RawStructure
  charge_tensors : Handle
  deriving DecidableEq, Repr

structure RawInternalStrain where
  structure_ : RawStructure
  internal_strain : Handle
  deriving DecidableEq, Repr

structure RawElasticModulus where
  clamped_ion : Handle
  relaxed_ion : Handle
  deriving DecidableEq, Repr

structure RawPiezoelectricTensor where
  electron : Handle
  ion : Handle
  deriving DecidableEq, Repr

structure RawPolarization where
  electron : Handle
  ion : Handle
  deriving DecidableEq, Repr

/-- Modelled from the spec: the keyed result container (`DataDict` from the
missing `py4vasp.raw.rawdata`): a mapping from variant key to record-or-absent
plus the version record of the source file. -/
structure DataDict (α : Type) where
  entries : List (String × Option α)
  version : RawVersion
  deriving DecidableEq, Repr

/-- Modelled from the spec: lookup in the keyed result container returns the
record-or-absent stored for the key; an unknown key fails with a key error. -/
def DataDict.get {α : Type} (d : DataDict α) (k : String) : Except Err (Option α) :=
  match d.entries.lookup k with
  | some v => .ok v
  | none => .error (.keyError k)

/-- `File.version`: reads the three scalar version leaves after checking the
closed flag. -/
def File.version (f : FileState) : Except Err RawVersion := do
  File._raise_error_if_closed f
  let ma ← h5getScalarInt f "version/major"
  let mi ← h5getScalarInt f "version/minor"
  let pa ← h5getScalarInt f "version/patch"
  pure ⟨ma, mi, pa⟩

/-- `File._make_data_dict`: wraps the default variant and the named extra
variants together with the file's version record; the `"default"` key is
placed first by construction. -/
def File._make_data_dict {α : Type} (f : FileState) (default : Option α)
    (other : List (String × Option α)) : Except Err (DataDict α) := do
  let v ← File.version f
  pure ⟨("default", default) :: other, v⟩

/-- Modelled from the spec: the version gate (`_util.version.require`,
missing from the sources) compares the container's version record with the
declared minimum before materializing and reports the capability error
without touching the data when the version is below the minimum. -/
def requireVersion {α : Type} (minv : RawVersion) (f : FileState)
    (body : Except Err α) : Except Err α := do
  let v ← File.version f
  if versionLt v minv then
    .error (.capabilityError "feature not available in this file's schema version")
  else body

def File._read_system (f : FileState) : Except Err RawSystem := do
  File._raise_error_if_closed f
  let s ← h5getScalarStr f "input/incar/SYSTEM"
  pure ⟨s⟩

def File.system (f : FileState) : Except Err (DataDict RawSystem) := do
  let r ← File._read_system f
  File._make_data_dict f (some r) []

def File._read_topology (f : FileState) : Except Err RawTopology := do
  File._raise_error_if_closed f
  let it ← h5get f "results/positions/ion_types"
  let nit ← h5get f "results/positions/number_ion_types"
  pure ⟨it, nit⟩

def File.topology (f : FileState) : Except Err (DataDict RawTopology) := do
  let r ← File._read_topology f
  File._make_data_dict f (some r) []

def File._read_cell (f : FileState) : Except Err RawCell := do
  File._raise_error_if_closed f
  let sc ← h5getScalarInt f "results/positions/scale"
  let lv ← h5get f "/intermediate/ion_dynamics/lattice_vectors"
  pure ⟨sc, lv⟩

def File.cell (f : FileState) : Except Err (DataDict RawCell) := do
  let r ← File._read_cell f
  File._make_data_dict f (some r) []

def File._read_kpoint (f : FileState) (suffix : String) : Except Err (Option RawKpoint) := do
  File._raise_error_if_closed f
  let input := if suffix = "_kpoints_opt" then "input/kpoints_opt" else "input/kpoints"
  let result := "results/electron_eigenvalues" ++ suffix
  if hasKey f input = false ∨ hasKey f result = false then
    pure none
  else do
    let mode ← h5getScalarStr f (input ++ "/mode")
    let number ← h5getScalarInt f (input ++ "/number_kpoints")
    let coordinates ← h5get f (result ++ "/kpoint_coords")
    let weights ← h5get f (result ++ "/kpoints_symmetry_weight")
    let cell ← File._read_cell f
    pure (some ⟨mode, number, coordinates, weights,
      File._safe_get_key f (input ++ "/labels_kpoints"),
      File._safe_get_key f (input ++ "/positions_labels_kpoints"), cell⟩)

def File.kpoint (f : FileState) : Except Err (DataDict RawKpoint) := do
  let d ← File._read_kpoint f ""
  let dk ← File._read_kpoint f "_kpoints_opt"
  File._make_data_dict f d [("kpoints_opt", dk)]

def File._read_projector (f : FileState) (suffix : String) : Except Err (Option RawProjector) := do
  File._raise_error_if_closed f
  if hasKey f ("results/projectors" ++ suffix) = false then
    pure none
  else do
    let topology ← File._read_topology f
    let ot ← h5get f ("results/projectors" ++ suffix ++ "/lchar")
    let ns ← h5len f ("results/electron_eigenvalues" ++ suffix ++ "/eigenvalues")
    pure (some ⟨topology, ot, ns⟩)

def File.projector (f : FileState) : Except Err (DataDict RawProjector) := do
  let d ← File._read_projector f ""
  let dk ← File._read_projector f "_kpoints_opt"
  File._make_data_dict f d [("kpoints_opt", dk)]

def File._read_dos (f : FileState) (suffix : String) : Except Err (Option RawDos) := do
  File._raise_error_if_closed f
  if hasKey f ("results/electron_dos" ++ suffix ++ "/energies") = false then
    pure none
  else do
    let fe ← h5getScalarInt f ("results/electron_dos" ++ suffix ++ "/efermi")
    let en ← h5get f ("results/electron_dos" ++ suffix ++ "/energies")
    let ds ← h5get f ("results/electron_dos" ++ suffix ++ "/dos")
    let pr ← File._read_projector f suffix
    pure (some ⟨fe, en, ds, pr,
      File._safe_get_key f ("results/electron_dos" ++ suffix ++ "/dospar")⟩)

def File.dos (f : FileState) : Except Err (DataDict RawDos) := do
  let d ← File._read_dos f ""
  let dk ← File._read_dos f "_kpoints_opt"
  File._make_data_dict f d [("kpoints_opt", dk)]

def File._read_band (f : FileState) (suffix : String) : Except Err (Option RawBand) := do
  File._raise_error_if_closed f
  if hasKey f ("results/electron_eigenvalues" ++ suffix) = false then
    pure none
  else do
    let fe ← h5getScalarInt f ("results/electron_dos" ++ suffix ++ "/efermi")
    let kp ← File._read_kpoint f suffix
    let ev ← h5get f ("results/electron_eigenvalues" ++ suffix ++ "/eigenvalues")
    let oc ← h5get f ("results/electron_eigenvalues" ++ suffix ++ "/fermiweights")
    let pr ← File._read_projector f suffix
    pure (some ⟨fe, kp, ev, oc, pr,
      File._safe_get_key f ("results/projectors" ++ suffix ++ "/par")⟩)

def File.band (f : FileState) : Except Err (DataDict RawBand) := do
  let d ← File._read_band f ""
  let dk ← File._read_band f "_kpoints_opt"
  File._make_data_dict f d [("kpoints_opt", dk)]

def File._read_structure (f : FileState) : Except Err RawStructure := do
  File._raise_error_if_closed f
  let topology ← File._read_topology f
  let cell ← File._read_cell f
  let pos ← h5get f "intermediate/ion_dynamics/position_ions"
  pure ⟨topology, cell, pos⟩

def File.structure_ (f : FileState) : Except Err (DataDict RawStructure) := do
  let r ← File._read_structure f
  File._make_data_dict f (some r) []

def File._read_magnetism (f : FileState) : Except Err (Option RawMagnetism) := do
  File._raise_error_if_closed f
  if hasKey f "intermediate/ion_dynamics/magnetism/moments" = false then
    pure none
  else do
    let st ← File._read_structure f
    let mo ← h5get f "intermediate/ion_dynamics/magnetism/moments"
    pure (some ⟨st, mo⟩)

def File.magnetism (f : FileState) : Except Err (DataDict RawMagnetism) := do
  let r ← File._read_magnetism f
  File._make_data_dict f r []

def File._read_energy (f : FileState) : Except Err RawEnergy := do
  File._raise_error_if_closed f
  let la ← h5get f "intermediate/ion_dynamics/energies_tags"
  let va ← h5get f "intermediate/ion_dynamics/energies"
  pure ⟨la, va⟩

def File.energy (f : FileState) : Except Err (DataDict RawEnergy) := do
  let r ← File._read_energy f
  File._make_data_dict f (some r) []

def File._read_density (f : FileState) : Except Err RawDensity := do
  File._raise_error_if_closed f
  let st ← File._read_structure f
  let ch ← h5get f "charge/charge"
  pure ⟨st, ch⟩

def File.density (f : FileState) : Except Err (DataDict RawDensity) := do
  let r ← File._read_density f
  File._make_data_dict f (some r) []

def File._read_force (f : FileState) : Except Err RawForce := do
  File._raise_error_if_closed f
  let st ← File._read_structure f
  let fo ← h5get f "intermediate/ion_dynamics/forces"
  pure ⟨st, fo⟩

def File.force (f : FileState) : Except Err (DataDict RawForce) := do
  let r ← File._read_force f
  File._make_data_dict f (some r) []

def File._read_stress (f : FileState) : Except Err RawStress := do
  File._raise_error_if_closed f
  let st ← File._read_structure f
  let sr ← h5get f "intermediate/ion_dynamics/stress"
  pure ⟨st, sr⟩

def File.stress (f : FileState) : Except Err (DataDict RawStress) := do
  let r ← File._read_stress f
  File._make_data_dict f (some r) []

def File._read_dielectric_function (f : FileState) :
    Except Err (Option RawDielectricFunction) := do
  File._raise_error_if_closed f
  if hasKey f "results/linear_response" = false then
    pure none
  else do
    let en ← h5get f "results/linear_response/energies_dielectric_function"
    pure (some ⟨en,
      File._safe_get_key f "results/linear_response/density_density_dielectric_function",
      File._safe_get_key f "results/linear_response/current_current_dielectric_function",
      File._safe_get_key f "results/linear_response/ion_dielectric_function"⟩)

def File.dielectric_function (f : FileState) : Except Err (DataDict RawDielectricFunction) :=
  requireVersion ⟨6, 3, 0⟩ f (do
    let r ← File._read_dielectric_function f
    File._make_data_dict f r [])

def File._read_force_constant (f : FileState) : Except Err RawForceConstant := do
  File._raise_error_if_closed f
  let st ← File._read_structure f
  let fc ← h5get f "results/linear_response/force_constants"
  pure ⟨st, fc⟩

def File.force_constant (f : FileState) : Except Err (DataDict RawForceConstant) :=
  requireVersion ⟨6, 3, 0⟩ f (do
    let r ← File._read_force_constant f
    File._make_data_dict f (some r) [])

def File._read_dielectric_tensor (f : FileState) : Except Err RawDielectricTensor := do
  File._raise_error_if_closed f
  let independent_particle :=
    File._safe_get_key f "results/linear_response/independent_particle_dielectric_tensor"
  let el ← h5get f "results/linear_response/electron_dielectric_tensor"
  let io ← h5get f "results/linear_response/ion_dielectric_tensor"
  let me ← h5getScalarStr f "results/linear_response/method_dielectric_tensor"
  pure ⟨el, io, independent_particle, me⟩

def File.dielectric_tensor (f : FileState) : Except Err (DataDict RawDielectricTensor) :=
  requireVersion ⟨6, 3, 0⟩ f (do
    let r ← File._read_dielectric_tensor f
    File._make_data_dict f (some r) [])

def File._read_born_effective_charge (f : FileState) : Except Err RawBornEffectiveCharge := do
  File._raise_error_if_closed f
  let st ← File._read_structure f
  let ct ← h5get f "results/linear_response/born_charges"
  pure ⟨st, ct⟩

def File.born_effective_charge (f : FileState) : Except Err (DataDict RawBornEffectiveCharge) :=
  requireVersion ⟨6, 3, 0⟩ f (do
    let r ← File._read_born_effective_charge f
    File._make_data_dict f (some r) [])

def File._read_internal_strain (f : FileState) : Except Err RawInternalStrain := do
  File._raise_error_if_closed f
  let st ← File._read_structure f
  let is ← h5get f "results/linear_response/internal_strain"
  pure ⟨st, is⟩

def File.internal_strain (f : FileState) : Except Err (DataDict RawInternalStrain) :=
  requireVersion ⟨6, 3, 0⟩ f (do
    let r ← File._read_internal_strain f
    File._make_data_dict f (some r) [])

def File._read_elastic_modulus (f : FileState) : Except Err RawElasticModulus := do
  File._raise_error_if_closed f
  let ci ← h5get f "results/linear_response/clamped_ion_elastic_modulus"
  let ri ← h5get f "results/linear_response/relaxed_ion_elastic_modulus"
  pure ⟨ci, ri⟩

def File.elastic_modulus (f : FileState) : Except Err (DataDict RawElasticModulus) :=
  requireVersion ⟨6, 3, 0⟩ f (do
    let r ← File._read_elastic_modulus f
    File._make_data_dict f (some r) [])

def File._read_piezoelectric_tensor (f : FileState) : Except Err RawPiezoelectricTensor := do
  File._raise_error_if_closed f
  let el ← h5get f "results/linear_response/electron_piezoelectric_tensor"
  let io ← h5get f "results/linear_response/ion_piezoelectric_tensor"
  pure ⟨el, io⟩

def File.piezoelectric_tensor (f : FileState) : Except Err (DataDict RawPiezoelectricTensor) :=
  requireVersion ⟨6, 3, 0⟩ f (do
    let r ← File._read_piezoelectric_tensor f
    File._make_data_dict f (some r) [])

def File._read_polarization (f : FileState) : Except Err RawPolarization := do
  File._raise_error_if_closed f
  let el ← h5get f "results/linear_response/electron_dipole_moment"
  let io ← h5get f "results/linear_response/ion_dipole_moment"
  pure ⟨el, io⟩

def File.polarization (f : FileState) : Except Err (DataDict RawPolarization) :=
  requireVersion ⟨6, 3, 0⟩ f (do
    let r ← File._read_polarization f
    File._make_data_dict f (some r) [])

/-- Claim C1: for every file, after `close()` every public data accessor
(version, system, dos, band, topology, projector, kpoint, cell, magnetism,
structure, energy, density, force, stress, and all gated linear-response
accessors) fails with the access error "I/O operation on closed file.", and
dereferencing any array handle (in particular one held by a record assembled
before the close) fails with the same access error. -/
theorem closed_file_every_accessor_raises (f : FileState) (h : Handle) :
    File.version (File.close f) = .error (.fileAccessError "I/O operation on closed file.") ∧
    File.system (File.close f) = .error (.fileAccessError "I/O operation on closed file.") ∧
    File.dos (File.close f) = .error (.fileAccessError "I/O operation on closed file.") ∧
    File.band (File.close f) = .error (.fileAccessError "I/O operation on closed file.") ∧
    File.topology (File.close f) = .error (.fileAccessError "I/O operation on closed file.") ∧
    File.projector (File.close f) = .error (.fileAccessError "I/O operation on closed file.") ∧
    File.kpoint (File.close f) = .error (.fileAccessError "I/O operation on closed file.") ∧
    File.cell (File.close f) = .error (.fileAccessError "I/O operation on closed file.") ∧
    File.magnetism (File.close f) = .error (.fileAccessError "I/O operation on closed file.") ∧
    File.structure_ (File.close f) = .error (.fileAccessError "I/O operation on closed file.") ∧
    File.energy (File.close f) = .error (.fileAccessError "I/O operation on closed file.") ∧
    File.density (File.close f) = .error (.fileAccessError "I/O operation on closed file.") ∧
    File.force (File.close f) = .error (.fileAccessError "I/O operation on closed file.") ∧
    File.stress (File.close f) = .error (.fileAccessError "I/O operation on closed file.") ∧
    File.dielectric_function (File.close f) =
      .error (.fileAccessError "I/O operation on closed file.") ∧
    File.force_constant (File.close f) =
      .error (.fileAccessError "I/O operation on closed file.") ∧
    File.dielectric_tensor (File.close f) =
      .error (.fileAccessError "I/O operation on closed file.") ∧
    File.born_effective_charge (File.close f) =
      .error (.fileAccessError "I/O operation on closed file.") ∧
    File.internal_strain (File.close f) =
      .error (.fileAccessError "I/O operation on closed file.") ∧
    File.elastic_modulus (File.close f) =
      .error (.fileAccessError "I/O operation on closed file.") ∧
    File.piezoelectric_tensor (File.close f) =
      .error (.fileAccessError "I/O operation on closed file.") ∧
    File.polarization (File.close f) =
      .error (.fileAccessError "I/O operation on closed file.") ∧
    derefHandle (File.close f) h = .error (.fileAccessError "I/O operation on closed file.") :=
  ⟨rfl, rfl, rfl, rfl, rfl, rfl, rfl, rfl, rfl, rfl, rfl, rfl, rfl, rfl, rfl, rfl,
   rfl, rfl, rfl, rfl, rfl, rfl, rfl⟩

/-- Helper: looking up a key that is not among the stored keys yields `none`. -/
theorem lookup_none_of_not_mem {α : Type} (l : List (String × α)) (k : String)
    (h : k ∉ l.map Prod.fst) : l.lookup k = none := by
  induction l with
  | nil => rfl
  | cons p es ih =>
    obtain ⟨a, b⟩ := p
    simp only [List.map_cons, List.mem_cons] at h
    push_neg at h
    have hne : (k == a) = false := by simpa using h.1
    simpa [List.lookup, hne] using ih h.2

/-- Helper: a gated accessor on a file whose version is below the minimum
reports the capability error without touching the body. -/
theorem requireVersion_below {α : Type} (minv v : RawVersion) (f : FileState)
    (body : Except Err α) (hf : File.version f = .ok v) (hlt : versionLt v minv) :
    requireVersion minv f body =
      .error (.capabilityError "feature not available in this file's schema version") := by
  unfold requireVersion
  rw [hf]
  simp [Bind.bind, Except.bind, if_pos hlt]

/-- Claim C2: on any file whose version record is lexicographically below
`RawVersion(6, 3)`, every version-gated accessor yields the capability error,
and the outcome agrees between any two files with the same below-minimum
version independent of the data present on disk. -/
theorem gated_accessors_below_minimum_version (f g : FileState) (v : RawVersion)
    (hf : File.version f = .ok v) (hg : File.version g = .ok v)
    (hlt : versionLt v ⟨6, 3, 0⟩) :
    (File.dielectric_function f =
        .error (.capabilityError "feature not available in this file's schema version") ∧
      File.dielectric_function f = File.dielectric_function g) ∧
    (File.force_constant f =
        .error (.capabilityError "feature not available in this file's schema version") ∧
      File.force_constant f = File.force_constant g) ∧
    (File.dielectric_tensor f =
        .error (.capabilityError "feature not available in this file's schema version") ∧
      File.dielectric_tensor f = File.dielectric_tensor g) ∧
    (File.born_effective_charge f =
        .error (.capabilityError "feature not available in this file's schema version") ∧
      File.born_effective_charge f = File.born_effective_charge g) ∧
    (File.internal_strain f =
        .error (.capabilityError "feature not available in this file's schema version") ∧
      File.internal_strain f = File.internal_strain g) ∧
    (File.elastic_modulus f =
        .error (.capabilityError "feature not available in this file's schema version") ∧
      File.elastic_modulus f = File.elastic_modulus g) ∧
    (File.piezoelectric_tensor f =
        .error (.capabilityError "feature not available in this file's schema version") ∧
      File.piezoelectric_tensor f = File.piezoelectric_tensor g) ∧
    (File.polarization f =
        .error (.capabilityError "feature not available in this file's schema version") ∧
      File.polarization f = File.polarization g) := by
  refine ⟨⟨?_, ?_⟩, ⟨?_, ?_⟩, ⟨?_, ?_⟩, ⟨?_, ?_⟩, ⟨?_, ?_⟩, ⟨?_, ?_⟩, ⟨?_, ?_⟩, ⟨?_, ?_⟩⟩ <;>
    first
      | exact requireVersion_below _ v f _ hf hlt
      | exact (requireVersion_below _ v f _ hf hlt).trans
          (requireVersion_below _ v g _ hg hlt).symm

/-- Version-(6,2,0) store that contains all linear-response groups. -/
def store62full : H5Store :=
  ⟨["version/major", "version/minor", "version/patch",
    "results/linear_response",
    "results/linear_response/electron_dielectric_tensor",
    "results/linear_response/ion_dielectric_tensor",
    "results/linear_response/method_dielectric_tensor",
    "results/linear_response/energies_dielectric_function"],
   [("version/major", 6), ("version/minor", 2), ("version/patch", 0)],
   [("results/linear_response/method_dielectric_tensor", "dft")], []⟩

/-- Version-(6,2,0) store that contains no linear-response data at all. -/
def store62empty : H5Store :=
  ⟨["version/major", "version/minor", "version/patch"],
   [("version/major", 6), ("version/minor", 2), ("version/patch", 0)], [], []⟩

def file62full : FileState := ⟨store62full, false⟩

def file62empty : FileState := ⟨store62empty, false⟩

theorem gated_accessors_below_minimum_version_witness :
    File.dielectric_tensor file62full =
      .error (.capabilityError "feature not available in this file's schema version") ∧
    File.dielectric_tensor file62full = File.dielectric_tensor file62empty :=
  ⟨(gated_accessors_below_minimum_version file62full file62empty ⟨6, 2, 0⟩ rfl rfl
      (by decide)).2.2.1.1,
   (gated_accessors_below_minimum_version file62full file62empty ⟨6, 2, 0⟩ rfl rfl
      (by decide)).2.2.1.2⟩

/-- Claim C3: every keyed result container built by `File._make_data_dict`
(the constructor used by every public accessor) contains the `"default"` key,
carries the file's version record, and fails with a key error on any key
other than the ones placed at construction. -/
theorem data_dict_default_version_and_unknown_key {α : Type} (f : FileState)
    (default : Option α) (other : List (String × Option α)) (d : DataDict α)
    (hd : File._make_data_dict f default other = .ok d) :
    DataDict.get d "default" = .ok default ∧
    File.version f = .ok d.version ∧
    ∀ k : String, k ∉ "default" :: other.map Prod.fst →
      DataDict.get d k = .error (.keyError k) := by
  cases hv : File.version f with
  | error e =>
    rw [File._make_data_dict, hv] at hd
    simp [Bind.bind, Except.bind] at hd
  | ok v =>
    rw [File._make_data_dict, hv] at hd
    simp only [Bind.bind, Except.bind, pure, Except.pure, Except.ok.injEq] at hd
    subst hd
    refine ⟨by simp [DataDict.get, List.lookup], rfl, ?_⟩
    intro k hk
    have : List.lookup k (("default", default) :: other) = none := by
      apply lookup_none_of_not_mem
      simpa using hk
    simp [DataDict.get, this]

theorem data_dict_default_version_and_unknown_key_witness :
    DataDict.get (DataDict.mk [("default", (none : Option RawDos))] ⟨6, 2, 0⟩) "default" =
      .ok none ∧
    File.version file62empty =
      .ok (DataDict.mk [("default", (none : Option RawDos))] ⟨6, 2, 0⟩).version ∧
    DataDict.get (DataDict.mk [("default", (none : Option RawDos))] ⟨6, 2, 0⟩) "dos" =
      .error (.keyError "dos") := by
  have h := data_dict_default_version_and_unknown_key file62empty (none : Option RawDos) []
    (DataDict.mk [("default", none)] ⟨6, 2, 0⟩) rfl
  exact ⟨h.1, h.2.1, h.2.2 "dos" (by decide)⟩

/-- Version-(6,3,0) store that contains only the version group: in particular
no linear-response group and none of the optional quantity groups. -/
def store63 : H5Store :=
  ⟨["version/major", "version/minor", "version/patch"],
   [("version/major", 6), ("version/minor", 3), ("version/patch", 0)], [], []⟩

def file63 : FileState := ⟨store63, false⟩

/-- Claim C4 counterexample: on an open version-(6,3,0) file whose container
lacks the `results/linear_response` group, the `dielectric_tensor` accessor
does not return an absent record: it fails with a key error for the first
dataset it dereferences, because `File._read_dielectric_tensor` has no
existence check for its root group. -/
theorem dielectric_tensor_missing_group_raises :
    File.dielectric_tensor file63 =
      .error (.keyError "results/linear_response/electron_dielectric_tensor") := by
  rfl

/-- Claim C4 (amended): the non-mandatory quantities with a root-group
existence check are exactly dos, band, projector, kpoint, magnetism and
dielectric_function; for those, an absent root group yields an explicit
absent record (`none` under the variant keys) and no error.  The remaining
readers (dielectric_tensor, force_constant, born_effective_charge,
internal_strain, elastic_modulus, piezoelectric_tensor, polarization, as
well as system, structure, energy, density, force, stress) dereference their
datasets directly and fail with a key error when the data is missing. -/
theorem optional_groups_absent_give_absent_records (f : FileState) (v : RawVersion)
    (hclosed : f.closed = false)
    (hv : File.version f = .ok v)
    (hver : ¬ versionLt v ⟨6, 3, 0⟩)
    (h1 : hasKey f "results/electron_dos/energies" = false)
    (h2 : hasKey f "results/electron_dos_kpoints_opt/energies" = false)
    (h3 : hasKey f "results/electron_eigenvalues" = false)
    (h4 : hasKey f "results/electron_eigenvalues_kpoints_opt" = false)
    (h5 : hasKey f "results/projectors" = false)
    (h6 : hasKey f "results/projectors_kpoints_opt" = false)
    (h7 : hasKey f "intermediate/ion_dynamics/magnetism/moments" = false)
    (h8 : hasKey f "results/linear_response" = false) :
    File.dos f = .ok ⟨[("default", none), ("kpoints_opt", none)], v⟩ ∧
    File.band f = .ok ⟨[("default", none), ("kpoints_opt", none)], v⟩ ∧
    File.projector f = .ok ⟨[("default", none), ("kpoints_opt", none)], v⟩ ∧
    File.kpoint f = .ok ⟨[("default", none), ("kpoints_opt", none)], v⟩ ∧
    File.magnetism f = .ok ⟨[("default", none)], v⟩ ∧
    File.dielectric_function f = .ok ⟨[("default", none)], v⟩ := by
  have hc : File._raise_error_if_closed f = .ok () := by
    simp [File._raise_error_if_closed, hclosed]
  refine ⟨?_, ?_, ?_, ?_, ?_, ?_⟩
  · simp [File.dos, File._read_dos, hc, h1, h2, File._make_data_dict, hv,
      Bind.bind, Except.bind, pure, Except.pure]
  · simp [File.band, File._read_band, hc, h3, h4, File._make_data_dict, hv,
      Bind.bind, Except.bind, pure, Except.pure]
  · simp [File.projector, File._read_projector, hc, h5, h6, File._make_data_dict, hv,
      Bind.bind, Except.bind, pure, Except.pure]
  · simp [File.kpoint, File._read_kpoint, hc, h3, h4, File._make_data_dict, hv,
      Bind.bind, Except.bind, pure, Except.pure]
  · simp [File.magnetism, File._read_magnetism, hc, h7, File._make_data_dict, hv,
      Bind.bind, Except.bind, pure, Except.pure]
  · rw [File.dielectric_function, requireVersion, hv]
    simp [Bind.bind, Except.bind, if_neg hver, File._read_dielectric_function, hc, h8,
      File._make_data_dict, hv, pure, Except.pure]

theorem optional_groups_absent_give_absent_records_witness :
    File.magnetism file63 = .ok ⟨[("default", none)], ⟨6, 3, 0⟩⟩ ∧
    File.dielectric_function file63 = .ok ⟨[("default", none)], ⟨6, 3, 0⟩⟩ := by
  have h := optional_groups_absent_give_absent_records file63 ⟨6, 3, 0⟩ rfl rfl
    (by decide) rfl rfl rfl rfl rfl rfl rfl rfl
  exact ⟨h.2.2.2.2.1, h.2.2.2.2.2⟩

/-- `File.default_filename`. -/
def default_filename : String := "vaspout.h5"

/-- The file-system facts `File.__init__` consults: which paths name
directories, and which resolved filenames can actually be opened (with the
container content found there). -/
structure FileSystem where
  dirs : List String
  files : List (String × H5Store)
  deriving DecidableEq, Repr

/-- `File._actual_filename`: a missing argument resolves to the default
filename, a directory argument resolves to the default filename inside that
directory, anything else is used as given. -/
def File._actual_filename (fs : FileSystem) (filename : Option String) : String :=
  match filename with
  | none => default_filename
  | some p => if fs.dirs.contains p then p ++ "/" ++ default_filename else p

/-- The error message raised by `File.__init__` when opening fails. -/
def openErrorMessage (filename : String) : String :=
  "Error opening " ++ filename ++ " to read the data. Please check that you " ++
  "already completed the Vasp calculation and that the file is indeed " ++
  "in the directory. Please also check whether you are running the " ++
  "Python script in the same directory or pass the appropriate filename " ++
  "including the path."

/-- `File.__init__`: resolve the filename, then open it; a failure to open
is converted into the access error `FileAccessError`. -/
def File.open_ (fs : FileSystem) (filename : Option String) : Except Err FileState :=
  let fn := File._actual_filename fs filename
  match fs.files.lookup fn with
  | some st => .ok ⟨st, false⟩
  | none => .error (.fileAccessError (openErrorMessage fn))

/-- Claim C7: a directory argument resolves to the default filename inside
the directory, a missing argument resolves to the default filename itself,
and any resolved file that cannot be opened makes construction fail with the
access error `FileAccessError` (never a silent fallback). -/
theorem open_resolution_and_access_error (fs : FileSystem) :
    (∀ p : String, fs.dirs.contains p = true →
      File._actual_filename fs (some p) = p ++ "/" ++ default_filename) ∧
    File._actual_filename fs none = default_filename ∧
    (∀ filename : Option String,
      fs.files.lookup (File._actual_filename fs filename) = none →
      File.open_ fs filename =
        .error (.fileAccessError (openErrorMessage (File._actual_filename fs filename)))) := by
  refine ⟨?_, rfl, ?_⟩
  · intro p hp
    simp only [File._actual_filename]
    rw [if_pos hp]
  · intro filename h
    simp [File.open_, h]

def exampleFileSystem : FileSystem :=
  ⟨["calc"], [("calc/vaspout.h5", store63)]⟩

theorem open_resolution_and_access_error_witness :
    File._actual_filename exampleFileSystem (some "calc") = "calc" ++ "/" ++ default_filename ∧
    File._actual_filename exampleFileSystem none = default_filename ∧
    File.open_ exampleFileSystem (some "missing.h5") =
      .error (.fileAccessError
        (openErrorMessage (File._actual_filename exampleFileSystem (some "missing.h5")))) := by
  have h := open_resolution_and_access_error exampleFileSystem
  exact ⟨h.1 "calc" (by decide), h.2.1, h.2.2 (some "missing.h5") (by decide)⟩

/-- Sum of `f 0 + ... + f (n-1)`, the building block for `np.sum` along one
axis. -/
def sumTo (n : Nat) (f : Nat → Int) : Int :=
  ((List.range n).map f).sum

/-- Rank-1 array: length of the only axis plus the entries. -/
structure Arr1 where
  n0 : Nat
  val : Nat → Int

/-- Rank-2 array. -/
structure Arr2 where
  n0 : Nat
  n1 : Nat
  val : Nat → Nat → Int

/-- Rank-3 array. -/
structure Arr3 where
  n0 : Nat
  n1 : Nat
  n2 : Nat
  val : Nat → Nat → Nat → Int

/-- Rank-4 array, the layout of the raw stepwise moments dataset:
(steps, components, atoms, orbitals). -/
structure Arr4 where
  n0 : Nat
  n1 : Nat
  n2 : Nat
  n3 : Nat
  val : Nat → Nat → Nat → Nat → Int

/-- A numpy value of any rank up to 4, as produced by the indexing and
reduction operations of `magnetism.py`. -/
inductive NDArr where
  | scalar (v : Int)
  | a1 (x : Arr1)
  | a2 (x : Arr2)
  | a3 (x : Arr3)
  | a4 (x : Arr4)

/-- `ndim` of a numpy value. -/
def NDArr.ndim : NDArr → Nat
  | .scalar _ => 0
  | .a1 _ => 1
  | .a2 _ => 2
  | .a3 _ => 3
  | .a4 _ => 4

/-- `np.sum(quantity, axis=-1)`: reduce the last axis. -/
def npsumLast : NDArr → NDArr
  | .scalar v => .scalar v
  | .a1 x => .scalar (sumTo x.n0 x.val)
  | .a2 x => .a1 ⟨x.n0, fun i => sumTo x.n1 (fun j => x.val i j)⟩
  | .a3 x => .a2 ⟨x.n0, x.n1, fun i j => sumTo x.n2 (fun k => x.val i j k)⟩
  | .a4 x => .a3 ⟨x.n0, x.n1, x.n2, fun i j k => sumTo x.n3 (fun l => x.val i j k l)⟩

/-- `np.sum(quantity, axis=-2)`: reduce the second-to-last axis. -/
def npsumSecondLast : NDArr → NDArr
  | .scalar v => .scalar v
  | .a1 x => .a1 x
  | .a2 x => .a1 ⟨x.n1, fun j => sumTo x.n0 (fun i => x.val i j)⟩
  | .a3 x => .a2 ⟨x.n0, x.n2, fun i k => sumTo x.n1 (fun j => x.val i j k)⟩
  | .a4 x => .a3 ⟨x.n0, x.n1, x.n3, fun i j l => sumTo x.n2 (fun k => x.val i j k l)⟩

/-- `np.moveaxis(quantity, src, -1)` for the source axes that occur in
`magnetism.py`; on any other combination the value is returned unchanged. -/
def NDArr.moveaxisLast : NDArr → Nat → NDArr
  | .a2 x, 0 => .a2 ⟨x.n1, x.n0, fun i j => x.val j i⟩
  | .a3 x, 0 => .a3 ⟨x.n1, x.n2, x.n0, fun i j k => x.val k i j⟩
  | .a3 x, 1 => .a3 ⟨x.n0, x.n2, x.n1, fun i j k => x.val i k j⟩
  | .a4 x, 0 => .a4 ⟨x.n1, x.n2, x.n3, x.n0, fun i j k l => x.val l i j k⟩
  | .a4 x, 1 => .a4 ⟨x.n0, x.n2, x.n3, x.n1, fun i j k l => x.val i l j k⟩
  | .a4 x, 2 => .a4 ⟨x.n0, x.n1, x.n3, x.n2, fun i j k l => x.val i j l k⟩
  | x, _ => x

/-- The step part of an indexing key of the stepwise reader: a single
(possibly negative) integer, a range materialized as the list of its
elements, or a non-integer key. -/
inductive StepsSel where
  | one (i : Int)
  | many (l : List Nat)
  | notInt (txt : String)
  deriving DecidableEq, Repr

/-- Python-style resolution of a possibly negative step index. -/
def resolveStep (n : Nat) (i : Int) : Nat :=
  (if i < 0 then (n : Int) + i else i).toNat

/-- The textual form of the step key, used in the read-error message
(`{key[0]}` in `_Magnetism.error_message`). -/
def stepKeyStr : StepsSel → String
  | .one i => toString i
  | .many l => toString l
  | .notInt txt => txt

/-- Modelled from the spec: the low-level validation the underlying array
library performs on the step key before slicing (the `_util.Reader` base
class catching the low-level error is not part of the sources); `none`
means the key is usable, `some e` carries the low-level error text. -/
def lowLevelCheck (m : Arr4) : StepsSel → Option String
  | .one i =>
      let j : Int := if i < 0 then (m.n0 : Int) + i else i
      if 0 ≤ j ∧ j < (m.n0 : Int) then none
      else some ("index " ++ toString i ++ " is out of bounds for axis 0 with size "
        ++ toString m.n0)
  | .many l =>
      if l.all (fun x => decide (x < m.n0)) then none
      else some ("index is out of bounds for axis 0 with size " ++ toString m.n0)
  | .notInt txt =>
      some ("only integers, slices and integer arrays are valid indices, got " ++ txt)

/-- `_Magnetism.error_message`: names the offending step key and appends the
underlying low-level error text. -/
def error_message (key e : String) : String :=
  "Error reading the magnetic moments. Please check if the key `" ++ key ++
  "` is properly formatted and within the boundaries. " ++
  "Additionally, you may consider the original error message:\n" ++ e

/-- The reader subscript `moments[steps, c, :, :]`: validate the step key,
then slice component `c`; a malformed key becomes a read error carrying
`error_message`. -/
def magGetComp (m : Arr4) (s : StepsSel) (c : Nat) : Except Err NDArr :=
  match lowLevelCheck m s with
  | some e => .error (.readError (error_message (stepKeyStr s) e))
  | none =>
    match s with
    | .one i => .ok (.a2 ⟨m.n2, m.n3, fun a o => m.val (resolveStep m.n0 i) c a o⟩)
    | .many l => .ok (.a3 ⟨l.length, m.n2, m.n3, fun sI a o => m.val (l.getD sI 0) c a o⟩)
    | .notInt _ => .ok (.scalar 0)

/-- The reader subscript `moments[steps, 1:, :, :]`. -/
def magGetTail (m : Arr4) (s : StepsSel) : Except Err NDArr :=
  match lowLevelCheck m s with
  | some e => .error (.readError (error_message (stepKeyStr s) e))
  | none =>
    match s with
    | .one i =>
        .ok (.a3 ⟨m.n1 - 1, m.n2, m.n3, fun d a o => m.val (resolveStep m.n0 i) (1 + d) a o⟩)
    | .many l =>
        .ok (.a4 ⟨l.length, m.n1 - 1, m.n2, m.n3,
          fun sI d a o => m.val (l.getD sI 0) (1 + d) a o⟩)
    | .notInt _ => .ok (.scalar 0)

/-- `_default_steps_if_none`: a missing steps argument means all steps. -/
def _default_steps_if_none (m : Arr4) : Option StepsSel → StepsSel
  | none => .many (List.range m.n0)
  | some s => s

/-- `_sum_over_orbitals`: `np.sum(quantity, axis=-1)`. -/
def _sum_over_orbitals : NDArr → NDArr := npsumLast

/-- `_charges`: `moments[steps, 0, :, :]` after defaulting the steps. -/
def _charges (m : Arr4) (steps0 : Option StepsSel) : Except Err NDArr :=
  magGetComp m (_default_steps_if_none m steps0) 0

/-- `_moments`: `None` for a non-spin-polarized array, the component-1 slice
in the collinear case, and the trailing components with the direction axis
moved to the end in the noncollinear case. -/
def _moments (m : Arr4) (steps0 : Option StepsSel) : Except Err (Option NDArr) :=
  let steps := _default_steps_if_none m steps0
  if m.n1 = 1 then .ok none
  else if m.n1 = 2 then do
    let x ← magGetComp m steps 1
    pure (some x)
  else do
    let x ← magGetTail m steps
    let direction_axis := if x.ndim = 4 then 1 else 0
    pure (some (x.moveaxisLast direction_axis))

/-- `_total_charges`: the charges summed over the orbitals. -/
def _total_charges (m : Arr4) (steps0 : Option StepsSel) : Except Err NDArr := do
  let c ← _charges m steps0
  pure (_sum_over_orbitals c)

/-- `_total_moments`: `None` for a non-spin-polarized array, the orbital sum
of `_moments` in the collinear case, and in the noncollinear case the orbital
sum of the trailing components with the direction axis moved to the end. -/
def _total_moments (m : Arr4) (steps0 : Option StepsSel) : Except Err (Option NDArr) :=
  if m.n1 = 1 then .ok none
  else if m.n1 = 2 then do
    let x ← _moments m steps0
    pure (x.map _sum_over_orbitals)
  else do
    let steps := _default_steps_if_none m steps0
    let t ← magGetTail m steps
    let total_moments := _sum_over_orbitals t
    let direction_axis := if total_moments.ndim = 3 then 1 else 0
    pure (some (total_moments.moveaxisLast direction_axis))

/-- `_to_dict`: the `"charges"` entry always, the `"moments"` entry only when
`_moments` is present. -/
def _to_dict (m : Arr4) (steps0 : Option StepsSel) : Except Err (List (String × NDArr)) := do
  let mm ← _moments m steps0
  let c ← _charges m steps0
  pure (("charges", c) :: (match mm with | some x => [("moments", x)] | none => []))

/-- Claim C6: a malformed step key (out-of-range integer, out-of-range range
element, or non-integer key) makes the stepwise magnetism read fail with a
read error whose message names the offending key and appends the underlying
low-level error text; the result is never a silently clamped slice. -/
theorem malformed_step_key_read_error (m : Arr4) (s : StepsSel) (e : String)
    (h : lowLevelCheck m s = some e) :
    magGetComp m s 0 = .error (.readError (error_message (stepKeyStr s) e)) ∧
    magGetTail m s = .error (.readError (error_message (stepKeyStr s) e)) ∧
    _charges m (some s) = .error (.readError (error_message (stepKeyStr s) e)) ∧
    error_message (stepKeyStr s) e =
      "Error reading the magnetic moments. Please check if the key `" ++ stepKeyStr s ++
      "` is properly formatted and within the boundaries. " ++
      "Additionally, you may consider the original error message:\n" ++ e := by
  refine ⟨?_, ?_, ?_, rfl⟩ <;>
    simp [magGetComp, magGetTail, _charges, _default_steps_if_none, h]

def exMoments : Arr4 :=
  ⟨2, 2, 1, 1, fun s c a o => (s : Int) + (c : Int) + (a : Int) + (o : Int)⟩

theorem malformed_step_key_read_error_witness :
    lowLevelCheck exMoments (.one 5) =
      some "index 5 is out of bounds for axis 0 with size 2" ∧
    _charges exMoments (some (.one 5)) =
      .error (.readError (error_message (stepKeyStr (.one 5))
        "index 5 is out of bounds for axis 0 with size 2")) :=
  ⟨by decide,
   (malformed_step_key_read_error exMoments (.one 5)
      "index 5 is out of bounds for axis 0 with size 2" (by decide)).2.2.1⟩

/-- Helper: the tail slice `moments[steps, 1:, :, :]` never has rank 1 or 2. -/
theorem magGetTail_ndim (m : Arr4) (s : StepsSel) (x : NDArr)
    (hg : magGetTail m s = .ok x) : x.ndim ≠ 1 ∧ x.ndim ≠ 2 := by
  unfold magGetTail at hg
  cases h : lowLevelCheck m s with
  | some e => rw [h] at hg; simp at hg
  | none =>
    rw [h] at hg
    cases s with
    | one i =>
      simp only [Except.ok.injEq] at hg
      subst hg
      exact ⟨by simp [NDArr.ndim], by simp [NDArr.ndim]⟩
    | many l =>
      simp only [Except.ok.injEq] at hg
      subst hg
      exact ⟨by simp [NDArr.ndim], by simp [NDArr.ndim]⟩
    | notInt txt =>
      simp only [Except.ok.injEq] at hg
      subst hg
      exact ⟨by simp [NDArr.ndim], by simp [NDArr.ndim]⟩

/-- Claim C9: whenever the component axis has at least two entries, the total
charges are the charges summed over the last (orbital) axis, and the total
moments are the per-orbital moments summed over their orbital axis: the last
axis in the collinear two-component case, the second-to-last axis (after the
direction axis was moved to the end) in the noncollinear case.  This holds
for every steps selection. -/
theorem total_moments_sum_over_orbitals (m : Arr4) (steps0 : Option StepsSel)
    (_h2 : 2 ≤ m.n1) :
    _total_charges m steps0 = Except.map npsumLast (_charges m steps0) ∧
    (m.n1 = 2 →
      _total_moments m steps0 = Except.map (Option.map npsumLast) (_moments m steps0)) ∧
    (2 < m.n1 →
      _total_moments m steps0 = Except.map (Option.map npsumSecondLast) (_moments m steps0)) := by
  refine ⟨?_, ?_, ?_⟩
  · unfold _total_charges
    cases hc : _charges m steps0 <;> simp [Bind.bind, Except.bind, Except.map, _sum_over_orbitals,
      pure, Except.pure]
  · intro hn
    have hn1 : ¬ m.n1 = 1 := by omega
    unfold _total_moments _moments
    rw [if_neg hn1, if_pos hn, if_neg hn1, if_pos hn]
    cases hg : magGetComp m (_default_steps_if_none m steps0) 1 <;>
      simp [Bind.bind, Except.bind, Except.map, pure, Except.pure, _moments, hn1, hn, hg,
        _sum_over_orbitals]
  · intro hn
    have hn1 : ¬ m.n1 = 1 := by omega
    have hn2 : ¬ m.n1 = 2 := by omega
    unfold _total_moments _moments
    rw [if_neg hn1, if_neg hn2, if_neg hn1, if_neg hn2]
    cases hg : magGetTail m (_default_steps_if_none m steps0) with
    | error e => simp [Bind.bind, Except.bind, Except.map, hg]
    | ok x =>
      simp only [Bind.bind, Except.bind, Except.map, hg, pure, Except.pure, Option.map]
      cases x with
      | scalar v => rfl
      | a1 y => exact absurd rfl (magGetTail_ndim m _ _ hg).1
      | a2 y => exact absurd rfl (magGetTail_ndim m _ _ hg).2
      | a3 y => rfl
      | a4 y => rfl

def exMomentsNC : Arr4 :=
  ⟨2, 4, 2, 3, fun s c a o => (s : Int) * 27 + (c : Int) * 9 + (a : Int) * 3 + (o : Int)⟩

theorem total_moments_sum_over_orbitals_witness :
    (2 ≤ exMoments.n1 ∧
      _total_charges exMoments none = Except.map npsumLast (_charges exMoments none) ∧
      _total_moments exMoments none =
        Except.map (Option.map npsumLast) (_moments exMoments none)) ∧
    (2 < exMomentsNC.n1 ∧
      _total_moments exMomentsNC (some (.one (-1))) =
        Except.map (Option.map npsumSecondLast) (_moments exMomentsNC (some (.one (-1))))) :=
  ⟨⟨by decide,
    (total_moments_sum_over_orbitals exMoments none (by decide)).1,
    (total_moments_sum_over_orbitals exMoments none (by decide)).2.1 (by decide)⟩,
   ⟨by decide,
    (total_moments_sum_over_orbitals exMomentsNC (some (.one (-1))) (by decide)).2.2 (by decide)⟩⟩

/-- Claim C10: for a non-spin-polarized moments array (component axis of size
one) and any steps selection, `_moments` and `_total_moments` are the absent
value, `_charges` still succeeds on any well-formed steps selection, and the
dictionary built by `_to_dict` contains the `"charges"` key and no
`"moments"` key. -/
theorem non_spin_polarized_no_moments (m : Arr4) (steps0 : Option StepsSel)
    (h1 : m.n1 = 1) :
    _moments m steps0 = .ok none ∧
    _total_moments m steps0 = .ok none ∧
    (∀ c : NDArr, _charges m steps0 = .ok c → _to_dict m steps0 = .ok [("charges", c)]) ∧
    (lowLevelCheck m (_default_steps_if_none m steps0) = none →
      (_charges m steps0).isOk = true) := by
  refine ⟨?_, ?_, ?_, ?_⟩
  · simp [_moments, h1]
  · simp [_total_moments, h1]
  · intro c hc
    simp [_to_dict, _moments, h1, Bind.bind, Except.bind, hc, pure, Except.pure]
  · intro hok
    cases hs : _default_steps_if_none m steps0 with
    | one i => simp [_charges, magGetComp, hs ▸ hok, hs, Except.isOk, Except.toBool]
    | many l => simp [_charges, magGetComp, hs ▸ hok, hs, Except.isOk, Except.toBool]
    | notInt txt => simp [_charges, magGetComp, hs ▸ hok, hs, Except.isOk, Except.toBool]

def exMomentsNP : Arr4 :=
  ⟨3, 1, 2, 2, fun s c a o => (s : Int) * 8 + (c : Int) * 4 + (a : Int) * 2 + (o : Int)⟩

theorem non_spin_polarized_no_moments_witness :
    exMomentsNP.n1 = 1 ∧
    _moments exMomentsNP none = .ok none ∧
    _total_moments exMomentsNP none = .ok none ∧
    (_charges exMomentsNP none).isOk = true :=
  ⟨by decide,
   (non_spin_polarized_no_moments exMomentsNP none (by decide)).1,
   (non_spin_polarized_no_moments exMomentsNP none (by decide)).2.1,
   (non_spin_polarized_no_moments exMomentsNP none (by decide)).2.2.2 (by decide)⟩

/-- A three-dimensional charge-density grid (one exciton slice). -/
abbrev Grid3 := List (List (List Int))

/-- Element-wise addition of two grids, the combination rule of the
selection algebra for a multi-atom selection. -/
def gridAdd (a b : Grid3) : Grid3 :=
  List.zipWith (List.zipWith (List.zipWith (· + ·))) a b

/-- Numpy transposition `.T` of a rank-3 grid: reverses the axes. -/
def transpose3 (g : Grid3) : Grid3 :=
  let d0 := g.length
  let d1 := (g.getD 0 []).length
  let d2 := ((g.getD 0 []).getD 0 []).length
  (List.range d2).map (fun k =>
    (List.range d1).map (fun j =>
      (List.range d0).map (fun i => ((g.getD i []).getD j []).getD k 0)))

/-- Split a character list at every occurrence of a separator. -/
def splitOnChar (c : Char) : List Char → List (List Char)
  | [] => [[]]
  | x :: xs =>
    let r := splitOnChar c xs
    if x = c then [] :: r
    else
      match r with
      | [] => [[x]]
      | g :: gs => (x :: g) :: gs

/-- Modelled from the spec: parsing of a selection expression
(`select.Tree.from_selection` followed by `tree.selections()`, missing from
the sources): an ordered sequence of selections separated by blanks, each
selection an ordered sequence of atoms combined by `+`. -/
def parseSelections (expr : String) : List (List String) :=
  ((splitOnChar ' ' expr.toList).filter (fun g => g ≠ [])).map
    (fun g => (splitOnChar '+' g).map (fun cs => String.mk cs))

/-- Modelled from the spec: the label of a resolved selection joins the atom
texts with `+`, deterministically and order-preservingly
(`Selector.label`, missing from the sources). -/
def joinPlus : List String → String
  | [] => ""
  | [x] => x
  | x :: xs => x ++ "+" ++ joinPlus xs

/-- Modelled from the spec: resolving one atom through the caller-supplied
name-to-index mapping; an atom that does not resolve to a valid index fails
with a selection error naming the atom and the valid range. -/
def resolveAtom (map_ : List (String × Nat)) (n : Nat) (atom : String) : Except Err Nat :=
  match map_.lookup atom with
  | some i =>
      if i < n then .ok i
      else .error (.selectionError
        ("Invalid selection " ++ atom ++ ": the valid range is [1, " ++ toString n ++ "]"))
  | none => .error (.selectionError
      ("Invalid selection " ++ atom ++ ": the valid range is [1, " ++ toString n ++ "]"))

/-- Modelled from the spec: materializing one selection
(`Selector.__getitem__`, missing from the sources): resolve every atom along
the designated axis and element-wise sum the corresponding slices. -/
def selectorMaterialize (map_ : List (String × Nat)) (data : List Grid3)
    (sel : List String) : Except Err Grid3 :=
  match sel with
  | [] => .error (.selectionError "empty selection")
  | a :: rest => do
    let i ← resolveAtom map_ data.length a
    rest.foldlM (fun acc atom => do
      let j ← resolveAtom map_ data.length atom
      pure (gridAdd acc (data.getD j []))) (data.getD i [])

/-- One entry of `viewer.grid_scalars`: the materialized quantity (with the
transposition and the added leading axis applied by `_grid_quantity`) and
its label.  The isosurface options are presentation data outside the core. -/
structure GridQuantity where
  quantity : List Grid3
  label : String
  deriving DecidableEq, Repr

/-- `Exciton._create_map`: maps the one-based exciton index literals to
zero-based axis indices. -/
def _create_map (data : List Grid3) : List (String × Nat) :=
  (List.range data.length).map (fun i => (toString (i + 1), i))

/-- `Exciton._label`: wraps the component label in the refinement selection
when one is set, otherwise returns the component label unchanged. -/
def _label (selfSelection : Option String) (componentLabel : String) : String :=
  match selfSelection with
  | some s => if s = "" then componentLabel else s ++ "(" ++ componentLabel ++ ")"
  | none => componentLabel

/-- `_INTERNAL`, the caller-defined default atom. -/
def _INTERNAL : String := "1"

/-- `Exciton.to_view`: check that data is present, default an omitted or
empty selection to `_INTERNAL`, parse the selection expression, and produce
one grid quantity per selection, each holding the transposed materialized
slice sum under a new leading axis together with its label. -/
def to_view (selfSelection : Option String) (raw : Option (List Grid3))
    (selection : Option String) : Except Err (List GridQuantity) :=
  match raw with
  | none => .error (.noData
      ("Exciton charge density was not found. Note that the exciton density is" ++
       "written to vaspout.h5 if the tgas LCHARGH5=T or LH5=T are set in" ++
       "the INCAR file"))
  | some data =>
    let sel := match selection with
      | none => _INTERNAL
      | some s => if s = "" then _INTERNAL else s
    let map_ := _create_map data
    (parseSelections sel).mapM (fun s => do
      let g ← selectorMaterialize map_ data s
      pure ⟨[transpose3 g], _label selfSelection (joinPlus s)⟩)

/-- Claim C5: for the selection expression `"1+2"` on a two-exciton array
(atom map `{"1": 0, "2": 1}`), the materialized selection is the element-wise
sum of the slices at indices 0 and 1 along the exciton axis, and the produced
grid quantity carries exactly the label `"1+2"` with the transposed sum as
its data. -/
theorem selection_one_plus_two_roundtrip (g0 g1 : Grid3) :
    selectorMaterialize (_create_map [g0, g1]) [g0, g1] ["1", "2"] = .ok (gridAdd g0 g1) ∧
    to_view none (some [g0, g1]) (some "1+2") =
      .ok [⟨[transpose3 (gridAdd g0 g1)], "1+2"⟩] := by
  have hm : _create_map [g0, g1] = [("1", 0), ("2", 1)] := by
    calc _create_map [g0, g1]
        = [(toString ((0 : Nat) + 1), (0 : Nat)), (toString ((1 : Nat) + 1), (1 : Nat))] := rfl
      _ = [("1", 0), ("2", 1)] := by decide
  constructor
  · rw [hm]; rfl
  · simp only [to_view]
    rw [hm]
    rfl

/-- Helper: in the atom map of a nonempty exciton array the atom `"1"`
resolves to index 0. -/
theorem lookup_create_map_one (g : Grid3) (rest : List Grid3) :
    List.lookup "1" (_create_map (g :: rest)) = some 0 := by
  unfold _create_map
  rw [List.length_cons, List.range_succ_eq_map, List.map_cons]
  have h1 : ("1" == toString (0 + 1)) = true := by decide
  simp [List.lookup, h1]

/-- Claim C8: an omitted or empty selection expression defaults to the single
caller-defined default atom `"1"` (the first exciton), producing exactly one
grid quantity. -/
theorem empty_selection_defaults_to_first_exciton (g : Grid3) (rest : List Grid3) :
    to_view none (some (g :: rest)) none = .ok [⟨[transpose3 g], "1"⟩] ∧
    to_view none (some (g :: rest)) (some "") = .ok [⟨[transpose3 g], "1"⟩] := by
  have hp : parseSelections "1" = [["1"]] := rfl
  have hl : List.lookup "1" (_create_map (g :: rest)) = some 0 := lookup_create_map_one g rest
  have hlen : 0 < (g :: rest).length := Nat.succ_pos _
  constructor <;>
  · simp only [to_view, _INTERNAL, eq_self_iff_true, if_true, hp]
    simp only [List.mapM_cons, List.mapM_nil, selectorMaterialize, resolveAtom]
    rw [hl]
    simp [hlen, Bind.bind, Except.bind, pure, Except.pure, joinPlus, _label, List.foldlM,
      List.getD]

end PV
